import Mathlib

/-!
Verification of the try-job submission client (trychange.py) against its
design description. The script packages a pending diff and submits it to a
try server either over HTTP or by committing a file into a shared
subversion repository. The definitions below are a shallow embedding of the
script: external effects (DNS resolution, the network, subprocess calls,
the clock, the remote store) are passed in explicitly as inputs, and
Python truthiness of an optional value is modelled by collapsing `None`
into the empty string, empty list, `false` or `0` of the matching type.
-/

namespace Trychange

/-- The field names a submission payload can carry (the keys of the
`values` dictionary built by `_ParseSendChangeOptions`, plus `patch`,
which only the HTTP transport adds). -/
inductive Field where
  | user
  | name
  | email
  | bot
  | revision
  | clobber
  | tests
  | root
  | patchlevel
  | issue
  | patchset
  | target
  | project
  | patch
deriving DecidableEq

/-- The rendering of a field key as the literal string the script uses. -/
def Field.key : Field → String
  | .user => "user"
  | .name => "name"
  | .email => "email"
  | .bot => "bot"
  | .revision => "revision"
  | .clobber => "clobber"
  | .tests => "tests"
  | .root => "root"
  | .patchlevel => "patchlevel"
  | .issue => "issue"
  | .patchset => "patchset"
  | .target => "target"
  | .project => "project"
  | .patch => "patch"

/-- The option record the transports receive. A missing (`None`) optional
value is collapsed into the empty value of its type, exactly matching the
truthiness tests the script performs on it. `issue`, `patchset` and
`patchlevel` are integer options (`type=int`), so their empty value is 0. -/
structure Options where
  user : String
  name : String
  email : String
  bot : List String
  revision : String
  clobber : Bool
  tests : List String
  root : String
  patchlevel : Nat
  issue : Nat
  patchset : Nat
  target : String
  project : String
  diff : String
  host : String
  port : String
  svn_repo : String

/-- One optional entry of the payload: present exactly when the guarding
truthiness test succeeds. -/
def optField (c : Prop) [Decidable c] (k : Field) (v : String) :
    List (Field × String) :=
  if c then [(k, v)] else []

/-- `_ParseSendChangeOptions`: builds the `values` mapping. `user` and
`name` are set unconditionally; every other field is guarded by the
truthiness of its option; list-valued options are comma-joined and
`clobber` is rendered as the literal `true`. -/
def _ParseSendChangeOptions (o : Options) : List (Field × String) :=
  optField (o.email ≠ "") .email o.email
    ++ [(.user, o.user), (.name, o.name)]
    ++ optField (o.bot ≠ []) .bot (String.intercalate "," o.bot)
    ++ optField (o.revision ≠ "") .revision o.revision
    ++ optField (o.clobber = true) .clobber "true"
    ++ optField (o.tests ≠ []) .tests (String.intercalate "," o.tests)
    ++ optField (o.root ≠ "") .root o.root
    ++ optField (o.patchlevel ≠ 0) .patchlevel (toString o.patchlevel)
    ++ optField (o.issue ≠ 0) .issue (toString o.issue)
    ++ optField (o.patchset ≠ 0) .patchset (toString o.patchset)
    ++ optField (o.target ≠ "") .target o.target
    ++ optField (o.project ≠ "") .project o.project

/-- The keys present in an assembled payload. -/
def payloadKeys (o : Options) : List Field :=
  (_ParseSendChangeOptions o).map Prod.fst

theorem mem_optField (c : Prop) [Decidable c] (k k' : Field)
    (v v' : String) : ((k', v') ∈ optField c k v) ↔ (c ∧ k' = k ∧ v' = v) := by
  by_cases h : c <;> simp [optField, h]

/-- C1: the assembled payload always contains the keys `user` and `name`,
and contains each optional key (email, bot, revision, clobber, tests,
root, patchlevel, issue, patchset, target, project) exactly when the
corresponding option value is non-empty; an absent optional value never
appears as a key at all. -/
theorem C1_payload_keys (o : Options) :
    Field.user ∈ payloadKeys o ∧
    Field.name ∈ payloadKeys o ∧
    (Field.email ∈ payloadKeys o ↔ o.email ≠ "") ∧
    (Field.bot ∈ payloadKeys o ↔ o.bot ≠ []) ∧
    (Field.revision ∈ payloadKeys o ↔ o.revision ≠ "") ∧
    (Field.clobber ∈ payloadKeys o ↔ o.clobber = true) ∧
    (Field.tests ∈ payloadKeys o ↔ o.tests ≠ []) ∧
    (Field.root ∈ payloadKeys o ↔ o.root ≠ "") ∧
    (Field.patchlevel ∈ payloadKeys o ↔ o.patchlevel ≠ 0) ∧
    (Field.issue ∈ payloadKeys o ↔ o.issue ≠ 0) ∧
    (Field.patchset ∈ payloadKeys o ↔ o.patchset ≠ 0) ∧
    (Field.target ∈ payloadKeys o ↔ o.target ≠ "") ∧
    (Field.project ∈ payloadKeys o ↔ o.project ≠ "") := by
  simp [payloadKeys, _ParseSendChangeOptions, mem_optField]

/-- The two fatal error classes of the script. `checkCallError` stands for
an unwrapped `gclient_utils.CheckCallError` escaping (it carries the failed
command's exit code). -/
inductive TryError where
  | invalidScript (msg : String)
  | noTryServerAccess (msg : String)
  | checkCallError (retcode : Int)
deriving DecidableEq

/-- The fixed trailing hint both error classes append when rendered. -/
def HELP_STRING : String := "Sorry, Tryserver is not available."

/-- `__str__` of the two exception classes: the message followed by the
fixed hint on the next line. -/
def TryError.render : TryError → String
  | .invalidScript m => m ++ "\n" ++ HELP_STRING
  | .noTryServerAccess m => m ++ "\n" ++ HELP_STRING
  | .checkCallError _ => ""

/-! ## Direct (HTTP) delivery: `_SendChangeHTTP` -/

/-- The observable outcome of one `urllib.urlopen` POST: an `IOError` with
its argument tuple, a falsy connection object, or a connection whose
`read()` yields the given body. -/
inductive HttpOutcome where
  | ioError (args : List String)
  | noConnection
  | response (body : String)
deriving DecidableEq

/-- `_SendChangeHTTP`. The network is an oracle giving the outcome of the
n-th POST attempt; the second component of the result counts the attempts
actually made. A missing host or port raises before any attempt; then a
single POST is issued, and every outcome other than a response body equal
to the literal `OK` raises `NoTryServerAccess` (an `IOError` whose third
argument is the bad-status-line marker gets a more specific message when
the payload carries a truthy `bot` value, that is, a non-empty
comma-join of the requested bots). -/
def _SendChangeHTTP (o : Options) (net : Nat → HttpOutcome) :
    Except TryError Unit × Nat :=
  if o.host = "" then
    (.error (.noTryServerAccess
      "Please use the --host option to specify the try server host to connect to."), 0)
  else if o.port = "" then
    (.error (.noTryServerAccess
      "Please use the --port option to specify the try server port to connect to."), 0)
  else
    let url := "http://" ++ o.host ++ ":" ++ o.port ++ "/send_try_patch"
    match net 0 with
    | .ioError args =>
      if String.intercalate "," o.bot ≠ "" ∧ 2 < args.length ∧
          args.getD 2 "" = "got a bad status line" then
        (.error (.noTryServerAccess (url ++ " is unaccessible. Bad --bot argument?")), 1)
      else
        (.error (.noTryServerAccess (url ++ " is unaccessible.")), 1)
    | .noConnection =>
      (.error (.noTryServerAccess (url ++ " is unaccessible.")), 1)
    | .response body =>
      if body ≠ "OK" then
        (.error (.noTryServerAccess (url ++ " is unaccessible.")), 1)
      else
        (.ok (), 1)

/-- C2: with host and port set, direct delivery succeeds exactly when the
single POST yields a connection whose body is the literal `OK`; every
other outcome raises `NoTryServerAccess`; and exactly one POST attempt is
made, with no retry. -/
theorem C2_http_delivery (o : Options) (net : Nat → HttpOutcome)
    (hhost : o.host ≠ "") (hport : o.port ≠ "") :
    ((_SendChangeHTTP o net).1 = .ok () ↔ net 0 = .response "OK") ∧
    (_SendChangeHTTP o net).2 = 1 ∧
    (∀ e, (_SendChangeHTTP o net).1 = .error e →
      ∃ m, e = .noTryServerAccess m) := by
  unfold _SendChangeHTTP
  rw [if_neg hhost, if_neg hport]
  rcases hnet : net 0 with args | _ | body <;> simp only [hnet]
  · split_ifs with h
    · exact ⟨by simp, by trivial, fun e he => ⟨_, (Except.error.inj he).symm⟩⟩
    · exact ⟨by simp, by trivial, fun e he => ⟨_, (Except.error.inj he).symm⟩⟩
  · exact ⟨by simp, by trivial, fun e he => ⟨_, (Except.error.inj he).symm⟩⟩
  · by_cases hb : body = "OK"
    · subst hb
      simp
    · rw [if_pos hb]
      exact ⟨by simp [hb], by trivial, fun e he => ⟨_, (Except.error.inj he).symm⟩⟩

/-- C2 witness: a concrete run with host and port set and an `OK` body
succeeds in exactly one attempt. -/
theorem C2_http_delivery_witness :
    ((_SendChangeHTTP
        ⟨"u", "n", "", [], "", false, [], "", 0, 0, 0, "", "", "d", "h", "80", ""⟩
        (fun _ => .response "OK")).1 = .ok () ↔
      (fun _ => HttpOutcome.response "OK") 0 = .response "OK") ∧
    (_SendChangeHTTP
        ⟨"u", "n", "", [], "", false, [], "", 0, 0, 0, "", "", "d", "h", "80", ""⟩
        (fun _ => .response "OK")).2 = 1 ∧
    (∀ e, (_SendChangeHTTP
        ⟨"u", "n", "", [], "", false, [], "", 0, 0, 0, "", "", "d", "h", "80", ""⟩
        (fun _ => .response "OK")).1 = .error e →
      ∃ m, e = .noTryServerAccess m) :=
  C2_http_delivery
    ⟨"u", "n", "", [], "", false, [], "", 0, 0, 0, "", "", "d", "h", "80", ""⟩
    (fun _ => .response "OK") (by decide) (by decide)

/-! ## Transport selection: `GetTryServerSettings` and the fallback in
`TryChange` (lines 460-467) -/

/-- The two delivery strategies. -/
inductive Transport where
  | http
  | svn
deriving DecidableEq

/-- The default-transport computation of `GetTryServerSettings`: `http`
when both port and host are configured and the host name resolves
(`_SafeResolve`), else `svn` when a repository URL is configured, else no
default at all. `resolves` is the outcome of the DNS lookup on the
configured host. -/
def defaultTransport (http_port http_host svn_repo : String)
    (resolves : Bool) : Option Transport :=
  if http_port ≠ "" ∧ http_host ≠ "" ∧ resolves = true then some .http
  else if svn_repo ≠ "" then some .svn
  else none

/-- The transport the run ends up with when the caller forces none
(`options.send_patch` keeps the settings default, and the fallback at the
top of `TryChange` re-checks plain host/port and svn_repo, without the DNS
probe, erroring out only when nothing is configured). The arguments are
the effective option values, which default to the repository settings when
the caller supplies none. -/
def chooseSendPatch (http_port http_host svn_repo : String)
    (resolves : Bool) : Except Unit Transport :=
  match defaultTransport http_port http_host svn_repo resolves with
  | some t => .ok t
  | none =>
    if http_port ≠ "" ∧ http_host ≠ "" then .ok .http
    else if svn_repo ≠ "" then .ok .svn
    else .error ()

/-- The selection policy exactly as the design description words it:
Direct when host, port are configured and the host resolves; otherwise
Mediated when a repository URL is configured; otherwise a hard
configuration error. Stated for comparison with `chooseSendPatch`. -/
def specClaimedSendPatch (http_port http_host svn_repo : String)
    (resolves : Bool) : Except Unit Transport :=
  if http_port ≠ "" ∧ http_host ≠ "" ∧ resolves = true then .ok .http
  else if svn_repo ≠ "" then .ok .svn
  else .error ()

/-- C3 counterexample: with host and port configured, a host that does not
resolve and no svn repository, the code still selects the Direct (HTTP)
transport through the fallback, where the claimed policy demands a hard
configuration error. -/
theorem C3_counterexample :
    chooseSendPatch "80" "tryserver.example.com" "" false = .ok .http ∧
    specClaimedSendPatch "80" "tryserver.example.com" "" false = .error () := by
  constructor <;> rfl

/-- C3 amended: the transport resolves to Direct when host and port are
configured and the host resolves; otherwise to Mediated when a
shared-repository URL is configured; otherwise to Direct again when host
and port are configured even though the host did not resolve; only when
neither a host/port pair nor a repository URL is configured does the run
stop with a hard configuration error before any delivery attempt. -/
theorem C3_transport_selection (http_port http_host svn_repo : String)
    (resolves : Bool) :
    chooseSendPatch http_port http_host svn_repo resolves =
      (if http_port ≠ "" ∧ http_host ≠ "" ∧ resolves = true then .ok .http
       else if svn_repo ≠ "" then .ok .svn
       else if http_port ≠ "" ∧ http_host ≠ "" then .ok .http
       else .error ()) := by
  by_cases h1 : http_port ≠ "" ∧ http_host ≠ "" ∧ resolves = true
  · simp [chooseSendPatch, defaultTransport, h1]
  · by_cases h2 : svn_repo ≠ ""
    · simp [chooseSendPatch, defaultTransport, h1, h2]
    · by_cases h3 : http_port ≠ "" ∧ http_host ≠ ""
      · have hres : resolves = false := by
          cases resolves
          · rfl
          · exact absurd ⟨h3.1, h3.2, rfl⟩ h1
        subst hres
        simp [chooseSendPatch, defaultTransport, h1, h2, h3]
      · simp [chooseSendPatch, defaultTransport, h1, h2, h3]

/-! ## Version-control detection: `GuessVCS` -/

/-- The detected backend. -/
inductive VCS where
  | svn
  | git
deriving DecidableEq

/-- The outcome of the probe `git rev-parse --is-inside-work-tree`:
`none` when the command succeeds, `some rc` when it raises
`CheckCallError` with exit code `rc` (the script treats 2 as ENOENT,
git not installed). -/
def GuessVCS (svnDirPresent : Bool) (gitProbe : Option Int) :
    Except TryError VCS :=
  if svnDirPresent then .ok .svn
  else
    match gitProbe with
    | none => .ok .git
    | some rc =>
      if rc ≠ 2 then .error (.checkCallError rc)
      else .error (.noTryServerAccess
        "Could not guess version control system. Are you in a working copy directory?")

/-- C4: detection selects Subversion whenever the `.svn` marker is present
(so the first backend wins when both coexist, the git probe being skipped
entirely); otherwise a successful git probe selects git; a probe failure
with exit code 2 (git not installed) falls through to the
`NoTryServerAccess` error for an undetermined system, while a probe
failure with any other code propagates as the raw command failure. -/
theorem C4_guess_vcs (gitProbe : Option Int) (rc : Int) (hrc : rc ≠ 2) :
    GuessVCS true gitProbe = .ok .svn ∧
    GuessVCS false none = .ok .git ∧
    GuessVCS false (some rc) = .error (.checkCallError rc) ∧
    GuessVCS false (some 2) = .error (.noTryServerAccess
      "Could not guess version control system. Are you in a working copy directory?") := by
  refine ⟨rfl, rfl, ?_, rfl⟩
  simp [GuessVCS, hrc]

/-- C4 witness: a concrete probe failure with exit code 128 (for example a
directory that is not inside a git work tree) propagates as the raw
command failure. -/
theorem C4_guess_vcs_witness :
    GuessVCS true (some 128) = .ok .svn ∧
    GuessVCS false none = .ok .git ∧
    GuessVCS false (some 128) = .error (.checkCallError 128) ∧
    GuessVCS false (some 2) = .error (.noTryServerAccess
      "Could not guess version control system. Are you in a working copy directory?") :=
  C4_guess_vcs (some 128) 128 (by decide)

/-! ## The top-level error policy of `TryChange` (lines 519-524) -/

/-- The `except (InvalidScript, NoTryServerAccess)` handler of `TryChange`:
given the classified error the pipeline raised, it produces the process
exit status and the list of lines printed for the error. With
`swallow_exception` set it returns 1 silently; otherwise it prints the
rendered error (message plus fixed hint) and returns 1. It never
re-raises: the result type is a plain pair, not an exception. -/
def TryChangeOnError (swallow_exception : Bool) (e : TryError) :
    Nat × List String :=
  if swallow_exception then (1, [])
  else (1, [e.render])

/-- C9: evaluating the handler in both modes on a classified error. With
`swallow_exception = true` the error is swallowed silently (status 1, no
output, nothing re-raised), although the docstring of `TryChange` says the
flag chooses between raising and swallowing; with `swallow_exception =
false` the rendered message with the fixed hint is printed and status 1
returned. No mode re-raises the error to the caller. -/
theorem C9_handler_never_raises :
    TryChangeOnError true (.noTryServerAccess "Could not guess version control system. Are you in a working copy directory?") = (1, []) ∧
    TryChangeOnError false (.noTryServerAccess "Could not guess version control system. Are you in a working copy directory?") =
      (1, ["Could not guess version control system. Are you in a working copy directory?\nSorry, Tryserver is not available."]) := by
  constructor <;> rfl

/-! ## GitSource diff post-processing: the loop of `GIT._GenerateDiff`

The git diff is split into lines (each keeping its trailing newline) and
the loop rewrites every line starting with `--- /dev/null` into
`--- ` followed by the next line with its first four characters removed.
Lines are modelled as their character sequences. The loop reads position
`i + 1` without any bounds guard, so the embedding returns `none` exactly
when that read would be out of range (a `--- /dev/null` line is last). At
iteration `i` the loop only ever rewrites position `i` and reads positions
`i` and `i + 1`, which are still original, so the in-place loop equals
this one-pass recursion. -/

/-- The marker the loop looks for at the start of a removed-file header. -/
def devNullHeader : List Char := "--- /dev/null".data

/-- The rewrite loop of `GIT._GenerateDiff` over the split diff lines. -/
def GIT_FixDiffLines : List (List Char) → Option (List (List Char))
  | [] => some []
  | s :: rest =>
    if devNullHeader.isPrefixOf s then
      match rest with
      | [] => none
      | t :: _ =>
        (GIT_FixDiffLines rest).map (fun r => ("--- ".data ++ t.drop 4) :: r)
    else
      (GIT_FixDiffLines rest).map (fun r => s :: r)

theorem fixDiff_single_pos (s : List Char)
    (hs : devNullHeader.isPrefixOf s = true) :
    GIT_FixDiffLines [s] = none := by
  simp [GIT_FixDiffLines, hs]

theorem fixDiff_cons_pos (s t : List Char) (rest : List (List Char))
    (hs : devNullHeader.isPrefixOf s = true) :
    GIT_FixDiffLines (s :: t :: rest) =
      (GIT_FixDiffLines (t :: rest)).map
        (fun r => ("--- ".data ++ t.drop 4) :: r) := by
  simp [GIT_FixDiffLines, hs]

theorem fixDiff_cons_neg (s : List Char) (rest : List (List Char))
    (hs : devNullHeader.isPrefixOf s = false) :
    GIT_FixDiffLines (s :: rest) =
      (GIT_FixDiffLines rest).map (fun r => s :: r) := by
  simp [GIT_FixDiffLines, hs]

theorem getElem?_cons_forall {α : Type} (a : α) (l : List α)
    (P : Nat → α → Prop) :
    (∀ i x, (a :: l)[i]? = some x → P i x) ↔
      (P 0 a ∧ ∀ i x, l[i]? = some x → P (i + 1) x) := by
  constructor
  · intro h
    refine ⟨h 0 a (by simp), fun i x hx => h (i + 1) x ?_⟩
    simpa using hx
  · rintro ⟨h0, h1⟩ i x hx
    cases i with
    | zero =>
      obtain rfl : a = x := by simpa using hx
      exact h0
    | succ i => exact h1 i x (by simpa using hx)

/-- C10: the rewrite loop is total exactly when every line starting with
`--- /dev/null` is followed by at least one further line; when such a line
is last, the unguarded read of the next line goes one past the end and the
embedding returns `none`. -/
theorem C10_fix_totality (l : List (List Char)) :
    (GIT_FixDiffLines l).isSome = true ↔
      (∀ i s, l[i]? = some s → devNullHeader.isPrefixOf s = true →
        i + 1 < l.length) := by
  induction l with
  | nil => simp [GIT_FixDiffLines]
  | cons s rest ih =>
    rw [getElem?_cons_forall s rest
      (fun i x => devNullHeader.isPrefixOf x = true → i + 1 < (s :: rest).length)]
    by_cases hs : devNullHeader.isPrefixOf s
    · cases rest with
      | nil =>
        rw [fixDiff_single_pos s hs]
        simp [hs]
      | cons t rest' =>
        rw [fixDiff_cons_pos s t rest' hs, Option.isSome_map', ih]
        simp [hs, Nat.succ_lt_succ_iff]
    · rw [fixDiff_cons_neg s rest (Bool.eq_false_iff.mpr hs), Option.isSome_map', ih]
      simp [hs, Nat.succ_lt_succ_iff]

/-- C8: whenever the rewrite loop completes, it preserves the number of
lines; every line starting with `--- /dev/null` whose following line is a
`+++ ` header becomes `--- ` followed by that header's path taken
verbatim (with its trailing newline), at any position in the diff; and
every line not starting with `--- /dev/null` is left unchanged. -/
theorem C8_fix_dev_null (l l' : List (List Char))
    (h : GIT_FixDiffLines l = some l') :
    l'.length = l.length ∧
    (∀ (i : Nat) (s p : List Char), l[i]? = some s →
      devNullHeader.isPrefixOf s = true →
      l[i + 1]? = some ("+++ ".data ++ p) →
      l'[i]? = some ("--- ".data ++ p)) ∧
    (∀ (i : Nat) (s : List Char), l[i]? = some s →
      devNullHeader.isPrefixOf s = false →
      l'[i]? = some s) := by
  induction l generalizing l' with
  | nil =>
    obtain rfl : l' = [] := by simpa [GIT_FixDiffLines] using h.symm
    refine ⟨rfl, ?_, ?_⟩
    · intro i s p hx
      simp at hx
    · intro i s hx
      simp at hx
  | cons s rest ih =>
    by_cases hs : devNullHeader.isPrefixOf s
    · cases rest with
      | nil => rw [fixDiff_single_pos s hs] at h; cases h
      | cons t rest' =>
        rw [fixDiff_cons_pos s t rest' hs, Option.map_eq_some'] at h
        obtain ⟨r', hr', rfl⟩ := h
        obtain ⟨ihl, ih2, ih3⟩ := ih r' hr'
        refine ⟨by simp [ihl], ?_, ?_⟩
        · intro i x p hx hpre hnext
          cases i with
          | zero =>
            obtain rfl : t = "+++ ".data ++ p := by simpa using hnext
            simp [List.drop_left]
          | succ i =>
            rw [List.getElem?_cons_succ]
            exact ih2 i x p (by simpa using hx) hpre (by simpa using hnext)
        · intro i x hx hpre
          cases i with
          | zero =>
            obtain rfl : s = x := by simpa using hx
            rw [hpre] at hs
            cases hs
          | succ i =>
            rw [List.getElem?_cons_succ]
            exact ih3 i x (by simpa using hx) hpre
    · rw [fixDiff_cons_neg s rest (Bool.eq_false_iff.mpr hs),
        Option.map_eq_some'] at h
      obtain ⟨r', hr', rfl⟩ := h
      obtain ⟨ihl, ih2, ih3⟩ := ih r' hr'
      refine ⟨by simp [ihl], ?_, ?_⟩
      · intro i x p hx hpre hnext
        cases i with
        | zero =>
          obtain rfl : s = x := by simpa using hx
          exact absurd hpre hs
        | succ i =>
          rw [List.getElem?_cons_succ]
          exact ih2 i x p (by simpa using hx) hpre (by simpa using hnext)
      · intro i x hx hpre
        cases i with
        | zero =>
          obtain rfl : s = x := by simpa using hx
          simp
        | succ i =>
          rw [List.getElem?_cons_succ]
          exact ih3 i x (by simpa using hx) hpre

/-- C8 witness: on the concrete three-line diff of a newly added file the
loop rewrites the `--- /dev/null` line into `--- ` plus the path of the
following `+++ ` line, and leaves the other lines unchanged. -/
theorem C8_fix_dev_null_witness :
    (["--- b.cc\n".data, "+++ b.cc\n".data, "x\n".data] : List (List Char)).length =
      (["--- /dev/null\n".data, "+++ b.cc\n".data, "x\n".data] : List (List Char)).length ∧
    (["--- b.cc\n".data, "+++ b.cc\n".data, "x\n".data] : List (List Char))[0]? =
      some ("--- ".data ++ "b.cc\n".data) ∧
    (["--- b.cc\n".data, "+++ b.cc\n".data, "x\n".data] : List (List Char))[2]? =
      some ("x\n".data) := by
  have h := C8_fix_dev_null
    ["--- /dev/null\n".data, "+++ b.cc\n".data, "x\n".data]
    ["--- b.cc\n".data, "+++ b.cc\n".data, "x\n".data] (by decide)
  exact ⟨h.1, h.2.1 0 ("--- /dev/null\n".data) ("b.cc\n".data)
      (by decide) (by decide) (by decide),
    h.2.2 2 ("x\n".data) (by decide) (by decide)⟩

/-! ## Mediated (SVN) delivery: `_SendChangeSVN`

The current time is an explicit input: `datetime.datetime.now()` is
modelled as a record of calendar fields, and `str()` of it renders
`YYYY-MM-DD HH:MM:SS` followed by `.ffffff` exactly when the microsecond
field is non-zero, every numeric field zero-padded to its width, as
Python's `datetime.__str__` (`isoformat` with a space separator) does.
The remote repository is an association of file names to committed
content; `svn ls` succeeds exactly when the name is present, `svn commit`
publishes the locally written bytes under the name. Failures of the
checkout, update, add and commit subprocesses are injected through an
environment record. -/

/-- The fields of `datetime.datetime.now()`. -/
structure PyDateTime where
  year : Nat
  month : Nat
  day : Nat
  hour : Nat
  minute : Nat
  second : Nat
  microsecond : Nat
deriving DecidableEq

/-- Zero-pad a decimal rendering to the given width. -/
def padNum (w n : Nat) : String :=
  String.mk (List.replicate (w - (toString n).length) '0') ++ toString n

/-- `str(datetime.datetime.now())`: the fractional part is printed only
when the microsecond field is non-zero. -/
def pyDateTimeStr (d : PyDateTime) : String :=
  padNum 4 d.year ++ "-" ++ padNum 2 d.month ++ "-" ++ padNum 2 d.day ++ " " ++
    padNum 2 d.hour ++ ":" ++ padNum 2 d.minute ++ ":" ++ padNum 2 d.second ++
    (if d.microsecond = 0 then "" else "." ++ padNum 6 d.microsecond)

/-- Python `str.replace` for single-character arguments. -/
def pyReplaceChar (a b : Char) (s : String) : String :=
  String.mk (s.data.map (fun c => if c = a then b else c))

/-- `EscapeDot`: every literal dot becomes a dash. -/
def EscapeDot (s : String) : String := pyReplaceChar '.' '-' s

/-- `current_time = str(datetime.datetime.now()).replace(':', '.')`. -/
def currentTimeStr (d : PyDateTime) : String :=
  pyReplaceChar ':' '.' (pyDateTimeStr d)

/-- The submission file name built by `_SendChangeSVN`. -/
def svnFileName (user name : String) (d : PyDateTime) : String :=
  EscapeDot user ++ "." ++ EscapeDot name ++ "." ++ currentTimeStr d ++ ".diff"

/-- The remote store: committed file names with their content. -/
abbrev Store := List (String × String)

/-- Whether `svn ls <repo>/<name>` succeeds. -/
def storeHas (store : Store) (k : String) : Bool :=
  store.any (fun kv => decide (kv.1 = k))

/-- The store after a commit publishes content `v` under name `k`
(overwriting in place when the name exists, appending otherwise;
committing unchanged content leaves the store identical). -/
def setStore : Store → String → String → Store
  | [], k, v => [(k, v)]
  | kv :: rest, k, v =>
    if kv.1 = k then (k, v) :: rest else kv :: setStore rest k v

/-- The committed content stored under a name. -/
def storeGet : Store → String → Option String
  | [], _ => none
  | kv :: rest, k => if kv.1 = k then some kv.2 else storeGet rest k

/-- The subversion subprocesses `_SendChangeSVN` can issue. -/
inductive SvnCmd where
  | checkout
  | ls
  | update
  | add
  | commit
deriving DecidableEq

/-- Injected failures of the subversion subprocesses (an `svn ls` failure
is not injected separately: the script treats it as the file being
absent). -/
structure SvnEnv where
  checkoutFails : Bool
  updateFails : Bool
  addFails : Bool
  commitFails : Bool

/-- What one mediated delivery did: its outcome, the resulting remote
store, the subversion commands issued, whether the temporary checkout
directory and commit-message file were created and released, and the
commit message written. -/
structure SvnResult where
  result : Except TryError Unit
  store : Store
  cmds : List SvnCmd
  tempDirCreated : Bool
  tempDirRemoved : Bool
  tempFileCreated : Bool
  tempFileClosed : Bool
  commitMsg : Option String

/-- The commit message: `description += "%s=%s\n" % (k, v)` over the
payload fields. -/
def svnDescription (values : List (Field × String)) : String :=
  values.foldl (fun acc kv => acc ++ (kv.1.key ++ "=" ++ kv.2 ++ "\n")) ""

/-- `_SendChangeSVN`. A missing repository URL raises before the
temporaries are created. Otherwise the temporary checkout directory and
message file are created, the body runs inside try/except (wrapping any
command failure into `NoTryServerAccess`), and the finally clause
releases both temporaries on every exit path. When `svn ls` finds the
computed file name already committed, the file is updated in place and
rewritten; otherwise it is written and `svn add`ed; either way the diff
bytes are then committed with the description as the message. The
wrapped command-failure messages are abbreviated to the failing
subcommand's name. -/
def _SendChangeSVN (o : Options) (d : PyDateTime) (env : SvnEnv)
    (store : Store) : SvnResult :=
  if o.svn_repo = "" then
    ⟨.error (.noTryServerAccess
        "Please use the --svn_repo option to specify the try server svn repository to connect to."),
      store, [], false, false, false, false, none⟩
  else
    let description := svnDescription (_ParseSendChangeOptions o)
    let attempt : Except TryError Unit × Store × List SvnCmd :=
      if env.checkoutFails then
        (.error (.noTryServerAccess "svn checkout\nOuput:\n"), store, [.checkout])
      else
        let file_name := svnFileName o.user o.name d
        if storeHas store file_name then
          if env.updateFails then
            (.error (.noTryServerAccess "svn update\nOuput:\n"), store,
              [.checkout, .ls, .update])
          else if env.commitFails then
            (.error (.noTryServerAccess "svn commit\nOuput:\n"), store,
              [.checkout, .ls, .update, .commit])
          else
            (.ok (), setStore store file_name o.diff,
              [.checkout, .ls, .update, .commit])
        else
          if env.addFails then
            (.error (.noTryServerAccess "svn add\nOuput:\n"), store,
              [.checkout, .ls, .add])
          else if env.commitFails then
            (.error (.noTryServerAccess "svn commit\nOuput:\n"), store,
              [.checkout, .ls, .add, .commit])
          else
            (.ok (), setStore store file_name o.diff,
              [.checkout, .ls, .add, .commit])
    ⟨attempt.1, attempt.2.1, attempt.2.2, true, true, true, true,
      some description⟩

theorem storeHas_setStore_self (s : Store) (k v : String) :
    storeHas (setStore s k v) k = true := by
  induction s with
  | nil => simp [setStore, storeHas]
  | cons kv rest ih =>
    by_cases h : kv.1 = k
    · simp [setStore, h, storeHas]
    · simp only [setStore, if_neg h, storeHas, List.any_cons]
      simp [storeHas] at ih
      simp [ih]

theorem setStore_setStore (s : Store) (k v : String) :
    setStore (setStore s k v) k v = setStore s k v := by
  induction s with
  | nil => simp [setStore]
  | cons kv rest ih =>
    by_cases h : kv.1 = k
    · simp [setStore, h]
    · simp [setStore, h, ih]

theorem storeGet_setStore_self (s : Store) (k v : String) :
    storeGet (setStore s k v) k = some v := by
  induction s with
  | nil => simp [setStore, storeGet]
  | cons kv rest ih =>
    by_cases h : kv.1 = k
    · simp [setStore, h, storeGet]
    · simp [setStore, h, storeGet, ih]

/-- A concrete option record for the mediated-delivery runs: plain user
and job name, a fixed diff and a configured repository URL. -/
def svnCexOptions : Options :=
  ⟨"jane.doe", "Unnamed", "", [], "", false, [], "", 0, 0, 0, "", "",
    "Index: a.cc\n", "", "", "svn://svn.chromium.org/chrome-try/try"⟩

/-- An environment in which every subversion command succeeds. -/
def svnCexEnv : SvnEnv := ⟨false, false, false, false⟩

/-- A concrete clock reading, microsecond 1. -/
def svnCexTime1 : PyDateTime := ⟨2009, 7, 15, 10, 30, 59, 1⟩

/-- The same clock reading to the second, microsecond 2. -/
def svnCexTime2 : PyDateTime := ⟨2009, 7, 15, 10, 30, 59, 2⟩

/-- C7: on every exit path of mediated delivery the temporary checkout
directory and the temporary commit-message file are released exactly when
they were created, for every combination of injected failures and store
contents: local filesystem state is unchanged modulo the remote store. -/
theorem C7_temp_cleanup (o : Options) (d : PyDateTime) (env : SvnEnv)
    (store : Store) :
    (_SendChangeSVN o d env store).tempDirCreated =
      (_SendChangeSVN o d env store).tempDirRemoved ∧
    (_SendChangeSVN o d env store).tempFileCreated =
      (_SendChangeSVN o d env store).tempFileClosed := by
  unfold _SendChangeSVN
  by_cases h : o.svn_repo = "" <;> simp [h]

/-- C6: on a run where every subversion command succeeds, mediated
delivery commits the diff bytes under the name
`<user>.<jobname>.<timestamp>.diff` in which every literal dot of the
user and of the job name is replaced by a dash, together with a commit
message made of one `key=value` line per payload field. -/
theorem C6_mediated_write (o : Options) (d : PyDateTime) (env : SvnEnv)
    (store : Store) (hrepo : o.svn_repo ≠ "")
    (hco : env.checkoutFails = false) (hup : env.updateFails = false)
    (hadd : env.addFails = false) (hcm : env.commitFails = false) :
    (_SendChangeSVN o d env store).result = .ok () ∧
    storeGet (_SendChangeSVN o d env store).store
      (svnFileName o.user o.name d) = some o.diff ∧
    (_SendChangeSVN o d env store).commitMsg =
      some (String.join ((_ParseSendChangeOptions o).map
        (fun kv => kv.1.key ++ "=" ++ kv.2 ++ "\n"))) ∧
    (svnFileName o.user o.name d).data =
      o.user.data.map (fun c => if c = '.' then '-' else c) ++ ['.'] ++
      o.name.data.map (fun c => if c = '.' then '-' else c) ++ ['.'] ++
      (currentTimeStr d).data ++ ".diff".data := by
  have hdot : (".").data = ['.'] := rfl
  refine ⟨?_, ?_, ?_, ?_⟩
  · by_cases hf : storeHas store (svnFileName o.user o.name d) = true <;>
      simp [_SendChangeSVN, hrepo, hco, hup, hadd, hcm, hf]
  · by_cases hf : storeHas store (svnFileName o.user o.name d) = true <;>
      simp [_SendChangeSVN, hrepo, hco, hup, hadd, hcm, hf,
        storeGet_setStore_self]
  · simp [_SendChangeSVN, hrepo, svnDescription, String.join, List.foldl_map]
  · simp [svnFileName, EscapeDot, pyReplaceChar, String.data_append, hdot]

/-- C6 witness: a concrete all-commands-succeed run reports success. -/
theorem C6_mediated_write_witness :
    (_SendChangeSVN svnCexOptions svnCexTime1 svnCexEnv []).result =
      .ok () :=
  (C6_mediated_write svnCexOptions svnCexTime1 svnCexEnv []
    (by decide) rfl rfl rfl rfl).1

/-- C5 counterexample: two runs whose timestamps agree in every field
down to the second (differing only in microseconds), with identical
user, job name and byte-identical diff, commit two distinct remote
objects: the file name carries the timestamp to the microsecond, so
identity to the second does not prevent a new remote object. -/
theorem C5_counterexample :
    svnCexTime1.year = svnCexTime2.year ∧
    svnCexTime1.month = svnCexTime2.month ∧
    svnCexTime1.day = svnCexTime2.day ∧
    svnCexTime1.hour = svnCexTime2.hour ∧
    svnCexTime1.minute = svnCexTime2.minute ∧
    svnCexTime1.second = svnCexTime2.second ∧
    (_SendChangeSVN svnCexOptions svnCexTime1 svnCexEnv []).store.length = 1 ∧
    (_SendChangeSVN svnCexOptions svnCexTime2 svnCexEnv
      ((_SendChangeSVN svnCexOptions svnCexTime1 svnCexEnv
        []).store)).store.length = 2 := by
  exact ⟨rfl, rfl, rfl, rfl, rfl, rfl, rfl, rfl⟩

/-- C5 amended: when the pre-write existence check finds the computed
file name already in the remote store, mediated delivery updates it in
place and never issues an `svn add`; hence re-invoking with identical
user, job name, byte-identical diff and the identical full timestamp
(microsecond granularity, since the generated name carries the timestamp
to the microsecond) produces no new remote object. -/
theorem C5_mediated_update_in_place (o : Options) (d : PyDateTime)
    (env : SvnEnv) (store : Store) :
    (storeHas store (svnFileName o.user o.name d) = true →
      SvnCmd.add ∉ (_SendChangeSVN o d env store).cmds) ∧
    ((_SendChangeSVN o d env store).result = .ok () →
      (_SendChangeSVN o d env
          ((_SendChangeSVN o d env store).store)).store =
        (_SendChangeSVN o d env store).store ∧
      SvnCmd.add ∉ (_SendChangeSVN o d env
          ((_SendChangeSVN o d env store).store)).cmds) := by
  constructor
  · intro hfound
    by_cases hrepo : o.svn_repo = ""
    · simp [_SendChangeSVN, hrepo]
    · cases hco : env.checkoutFails
      · by_cases hup : env.updateFails = true <;>
          by_cases hcm : env.commitFails = true <;>
            simp [_SendChangeSVN, hrepo, hco, hfound, hup, hcm]
      · simp [_SendChangeSVN, hrepo, hco]
  · intro hok
    by_cases hrepo : o.svn_repo = ""
    · simp [_SendChangeSVN, hrepo] at hok
    · cases hco : env.checkoutFails
      · by_cases hf : storeHas store (svnFileName o.user o.name d) = true
        · cases hup : env.updateFails
          · cases hcm : env.commitFails
            · simp [_SendChangeSVN, hrepo, hco, hf, hup, hcm,
                storeHas_setStore_self, setStore_setStore]
            · simp [_SendChangeSVN, hrepo, hco, hf, hup, hcm] at hok
          · simp [_SendChangeSVN, hrepo, hco, hf, hup] at hok
        · cases hadd : env.addFails
          · cases hcm : env.commitFails
            · cases hup : env.updateFails <;>
                simp [_SendChangeSVN, hrepo, hco, hf, hadd, hcm, hup,
                  storeHas_setStore_self, setStore_setStore]
            · simp [_SendChangeSVN, hrepo, hco, hf, hadd, hcm] at hok
          · simp [_SendChangeSVN, hrepo, hco, hf, hadd] at hok
      · simp [_SendChangeSVN, hrepo, hco] at hok

end Trychange
